import Mathlib

/-!
Shallow embedding of the csv-plotter-app core (src/plotdata.rev2.py):
the time-window filter, the per-column summary statistics, and the
per-refresh control flow (range check, column selection, empty guards,
session-state update).

Timestamps are modelled as `Int` (a single comparable combined
date+time scalar, as produced by `datetime.combine` / `pd.to_datetime`);
numeric cell values are modelled as `ℚ`.
-/

/-- One observation: a combined timestamp and a mapping from column
name to numeric value (one dataframe row). -/
structure Row where
  timestamp : Int
  values : String → ℚ

/-- The loaded dataframe: its column names and its ordered rows. -/
structure Table where
  cols : List String
  rows : List Row

/-- The boolean mask of line 119:
`(df["datetime"] >= start_dt) & (df["datetime"] <= end_dt)`. -/
def inRange (startDt endDt : Int) (r : Row) : Bool :=
  decide (startDt ≤ r.timestamp) && decide (r.timestamp ≤ endDt)

/-- Line 119: `filtered_df = df[(df["datetime"] >= ...) & (df["datetime"] <= ...)]`,
a stable row filter that keeps the schema. -/
def filterTable (t : Table) (startDt endDt : Int) : Table :=
  ⟨t.cols, t.rows.filter (inRange startDt endDt)⟩

/-- Minimum of a list of values (the `min` aggregate of line 183). -/
def listMin : List ℚ → ℚ
  | [] => 0
  | [x] => x
  | x :: y :: t => min x (listMin (y :: t))

/-- Maximum of a list of values (the `max` aggregate of line 183). -/
def listMax : List ℚ → ℚ
  | [] => 0
  | [x] => x
  | x :: y :: t => max x (listMax (y :: t))

/-- Arithmetic mean of a list of values (the `mean` aggregate of line 183). -/
def listMean (l : List ℚ) : ℚ := l.sum / l.length

/-- One row of `summary_df` after the rename of line 184:
the columns Min, Avg, Max for one selected field. -/
structure SummaryStat where
  minVal : ℚ
  avgVal : ℚ
  maxVal : ℚ
deriving DecidableEq, Repr

/-- The three aggregates over one column's values. -/
def summaryOf (l : List ℚ) : SummaryStat :=
  ⟨listMin l, listMean l, listMax l⟩

/-- Lines 183-184: `filtered_df[selected_columns].agg(['min','mean','max']).T`
renamed to Min/Avg/Max — one summary row per selected column, keyed by
column name, in selection order. -/
def summarize (rows : List Row) (sel : List String) : List (String × SummaryStat) :=
  sel.map (fun c => (c, summaryOf (rows.map (fun r => r.values c))))

/-- Line 101: `exclude_cols = ['Date', 'time', 'datetime']`. -/
def excludeCols : List String := ["Date", "time", "datetime"]

/-- Line 102: `available_columns = [col for col in df.columns if col not in exclude_cols]`. -/
def availableColumns (t : Table) : List String :=
  t.cols.filter (fun c => !(excludeCols.contains c))

/-- Lines 104-108: the multiselect returns the user's pick when one was
made, otherwise its default `available_columns[:2] if len(available_columns) >= 2
else available_columns`. -/
def resolveSelection (available : List String) : Option (List String) → List String
  | some l => l
  | none => if available.length ≥ 2 then available.take 2 else available

/-- The terminal error conditions of one refresh cycle (section 7 of the
design): bad range (line 96), empty selection (line 110), empty filter
result (line 121). -/
inductive AppError where
  | invalidRange
  | emptySelection
  | noDataInRange
deriving DecidableEq, Repr

/-- The framework session store as the program uses it: `plot_ready`
present exactly when a filtered dataframe and its selection are stored
(lines 174-176, 181-182). -/
structure SessionData where
  filtered : Table
  selected : List String

/-- The state that survives across refresh cycles: the loaded table and
the session store. -/
structure AppState where
  df : Table
  sess : Option SessionData

/-- What one refresh cycle produces: the state afterwards, the error it
halted with (if any), and the summary it displayed (if it got there). -/
structure CycleResult where
  state : AppState
  error : Option AppError
  summary : Option (List (String × SummaryStat))

/-- One refresh cycle of the script, lines 93-195:
range check and `st.stop` (96-98); selection resolution (104-108) and
empty-selection `st.stop` (110-112); on button press or first load
(118) the filter (119), the empty-result `st.stop` (121-123) and the
session-state update (174-176); finally the summary computed from the
session store (180-184). `st.stop` aborts the script, so a halted
cycle returns the state unchanged and displays no summary. -/
def runCycle (st : AppState) (startDt endDt : Int)
    (pick : Option (List String)) (button : Bool) : CycleResult :=
  if startDt > endDt then
    ⟨st, some AppError.invalidRange, none⟩
  else
    let selected := resolveSelection (availableColumns st.df) pick
    if selected.isEmpty then
      ⟨st, some AppError.emptySelection, none⟩
    else if button || st.sess.isNone then
      let fd := filterTable st.df startDt endDt
      if fd.rows.isEmpty then
        ⟨st, some AppError.noDataInRange, none⟩
      else
        ⟨⟨st.df, some ⟨fd, selected⟩⟩, none, some (summarize fd.rows selected)⟩
    else
      match st.sess with
      | some sd => ⟨st, none, some (summarize sd.filtered.rows sd.selected)⟩
      | none => ⟨st, some AppError.noDataInRange, none⟩

/-! ### Concrete data for the witnesses -/

/-- A demo row at timestamp 0 with value 1 in column X. -/
def rowA : Row := ⟨0, fun c => if c = "X" then 1 else 10⟩

/-- A demo row at timestamp 5 with value 2 in column X. -/
def rowB : Row := ⟨5, fun c => if c = "X" then 2 else 20⟩

/-- A demo row at timestamp 20 with value 3 in column X. -/
def rowC : Row := ⟨20, fun c => if c = "X" then 3 else 30⟩

/-- A demo table with the timestamp source columns and two plottable
columns X and Y. -/
def demoTable : Table :=
  ⟨["Date", "time", "datetime", "X", "Y"], [rowA, rowB, rowC]⟩

/-- The session entry produced by a successful update on the demo table
with the window [0, 10]. -/
def demoSession : SessionData := ⟨filterTable demoTable 0 10, ["X", "Y"]⟩

/-! ### Supporting lemmas -/

lemma inRange_eq_true_iff (s e : Int) (r : Row) :
    inRange s e r = true ↔ s ≤ r.timestamp ∧ r.timestamp ≤ e := by
  simp [inRange]

lemma availableColumns_subset (t : Table) :
    ∀ c ∈ availableColumns t, c ∈ t.cols := by
  intro c hc
  exact List.mem_of_mem_filter hc

lemma runCycle_df_eq (st : AppState) (s e : Int)
    (pick : Option (List String)) (button : Bool) :
    (runCycle st s e pick button).state.df = st.df := by
  unfold runCycle
  by_cases h1 : s > e
  · simp [h1]
  · simp only [h1, if_false]
    by_cases h2 : (resolveSelection (availableColumns st.df) pick).isEmpty
    · simp [h2]
    · simp only [h2, if_false]
      by_cases h3 : button || st.sess.isNone
      · simp only [h3, if_true]
        by_cases h4 : (filterTable st.df s e).rows.isEmpty
        · simp [h4]
        · simp [h4]
      · simp only [h3, if_false]
        cases st.sess with
        | some sd => rfl
        | none => rfl

lemma len_mul_listMin_le_sum : ∀ (l : List ℚ), l ≠ [] → (l.length : ℚ) * listMin l ≤ l.sum
  | [], h => absurd rfl h
  | [x], _ => by simp [listMin]
  | x :: y :: t, _ => by
      have ih := len_mul_listMin_le_sum (y :: t) (List.cons_ne_nil y t)
      have h1 : min x (listMin (y :: t)) ≤ x := min_le_left _ _
      have h2 : min x (listMin (y :: t)) ≤ listMin (y :: t) := min_le_right _ _
      have h3 : (0:ℚ) ≤ ((y :: t).length : ℚ) := by positivity
      simp only [listMin, List.sum_cons, List.length_cons] at *
      push_cast at *
      nlinarith [ih, h1, h2, h3]

lemma sum_le_len_mul_listMax : ∀ (l : List ℚ), l ≠ [] → l.sum ≤ (l.length : ℚ) * listMax l
  | [], h => absurd rfl h
  | [x], _ => by simp [listMax]
  | x :: y :: t, _ => by
      have ih := sum_le_len_mul_listMax (y :: t) (List.cons_ne_nil y t)
      have h1 : x ≤ max x (listMax (y :: t)) := le_max_left _ _
      have h2 : listMax (y :: t) ≤ max x (listMax (y :: t)) := le_max_right _ _
      have h3 : (0:ℚ) ≤ ((y :: t).length : ℚ) := by positivity
      simp only [listMax, List.sum_cons, List.length_cons] at *
      push_cast at *
      nlinarith [ih, h1, h2, h3]

lemma listMin_le_listMean (l : List ℚ) (h : l ≠ []) : listMin l ≤ listMean l := by
  have hlen : 0 < l.length := List.length_pos.mpr h
  have hlen2 : (0:ℚ) < (l.length : ℚ) := by exact_mod_cast hlen
  rw [listMean, le_div_iff₀ hlen2]
  calc listMin l * (l.length : ℚ) = (l.length : ℚ) * listMin l := by ring
  _ ≤ l.sum := len_mul_listMin_le_sum l h

lemma listMean_le_listMax (l : List ℚ) (h : l ≠ []) : listMean l ≤ listMax l := by
  have hlen : 0 < l.length := List.length_pos.mpr h
  have hlen2 : (0:ℚ) < (l.length : ℚ) := by exact_mod_cast hlen
  rw [listMean, div_le_iff₀ hlen2]
  calc l.sum ≤ (l.length : ℚ) * listMax l := sum_le_len_mul_listMax l h
  _ = listMax l * (l.length : ℚ) := by ring

/-! ### Claim theorems -/

/-- C1: for every table and every validated time range with start ≤ end,
the filter keeps exactly the rows whose timestamp t satisfies
start ≤ t ≤ end (both boundaries inclusive), and the result is a stable
subsequence of the input rows (order preserved, no re-sorting). -/
theorem filter_window_inclusive_stable (tbl : Table) (s e : Int) (h : s ≤ e) :
    (filterTable tbl s e).rows.Sublist tbl.rows ∧
    ∀ r, r ∈ (filterTable tbl s e).rows ↔
      (r ∈ tbl.rows ∧ s ≤ r.timestamp ∧ r.timestamp ≤ e) := by
  constructor
  · exact List.filter_sublist tbl.rows
  · intro r
    simp [filterTable, List.mem_filter, inRange, and_assoc]

/-- Witness for C1 on the demo table: the row sitting exactly on the
start boundary is kept. -/
theorem filter_window_inclusive_stable_witness :
    (0 : Int) ≤ 5 ∧
    (rowA ∈ (filterTable demoTable 0 5).rows ↔
      (rowA ∈ demoTable.rows ∧ 0 ≤ rowA.timestamp ∧ rowA.timestamp ≤ 5)) :=
  ⟨by decide, (filter_window_inclusive_stable demoTable 0 5 (by decide)).2 rowA⟩

/-- C2: whenever the combined start is after the combined end, the cycle
halts with the invalid-range error, the state is untouched and no
filtering or summarizing happens (no summary is produced). -/
theorem invalidRange_halts_cycle (st : AppState) (s e : Int)
    (pick : Option (List String)) (button : Bool) (h : s > e) :
    runCycle st s e pick button = ⟨st, some AppError.invalidRange, none⟩ := by
  simp [runCycle, h]

/-- Witness for C2: start 5, end 3 on the demo state. -/
theorem invalidRange_halts_cycle_witness :
    (5 : Int) > 3 ∧
    runCycle ⟨demoTable, none⟩ 5 3 none true =
      ⟨⟨demoTable, none⟩, some AppError.invalidRange, none⟩ :=
  ⟨by decide, invalidRange_halts_cycle ⟨demoTable, none⟩ 5 3 none true (by decide)⟩

/-- C10: a refresh cycle never modifies the loaded table — the state's
dataframe after filter and summarize is the one loaded before. -/
theorem filter_summarize_preserve_table (st : AppState) (s e : Int)
    (pick : Option (List String)) (button : Bool) :
    (runCycle st s e pick button).state.df = st.df :=
  runCycle_df_eq st s e pick button

/-- C3: for a valid range and a non-empty selection, when the filtered
subset is empty the cycle halts with the no-data-in-range error before
any summarizing: no summary is produced and the state (including the
stored last result) is untouched. -/
theorem noDataInRange_halts_cycle (df : Table) (sess : Option SessionData)
    (s e : Int) (pick : Option (List String))
    (hrange : s ≤ e)
    (hsel : resolveSelection (availableColumns df) pick ≠ [])
    (hempty : (filterTable df s e).rows = []) :
    runCycle ⟨df, sess⟩ s e pick true =
      ⟨⟨df, sess⟩, some AppError.noDataInRange, none⟩ := by
  have h1 : ¬ s > e := not_lt.mpr hrange
  simp [runCycle, h1, List.isEmpty_iff, hsel, hempty]

/-- Witness for C3: the window [100, 200] lies beyond every demo row. -/
theorem noDataInRange_halts_cycle_witness :
    ((100 : Int) ≤ 200 ∧ resolveSelection (availableColumns demoTable) none ≠ []) ∧
    runCycle ⟨demoTable, none⟩ 100 200 none true =
      ⟨⟨demoTable, none⟩, some AppError.noDataInRange, none⟩ :=
  ⟨⟨by decide, by decide⟩,
   noDataInRange_halts_cycle demoTable none 100 200 none (by decide) (by decide) rfl⟩

/-- C5: filter and summarize are pure functions of table, range and
selection — a cycle run with the update button pressed produces the same
summary, the same error and (when it succeeds) the same stored filtered
subset and selection, whatever session state was left over. -/
theorem cycle_deterministic_in_inputs (df : Table) (s e : Int)
    (pick : Option (List String)) (sess1 sess2 : Option SessionData) :
    (runCycle ⟨df, sess1⟩ s e pick true).summary =
      (runCycle ⟨df, sess2⟩ s e pick true).summary ∧
    (runCycle ⟨df, sess1⟩ s e pick true).error =
      (runCycle ⟨df, sess2⟩ s e pick true).error ∧
    ((runCycle ⟨df, sess1⟩ s e pick true).error = none →
      (runCycle ⟨df, sess1⟩ s e pick true).state.sess =
        (runCycle ⟨df, sess2⟩ s e pick true).state.sess) := by
  unfold runCycle
  by_cases h1 : s > e
  · simp [h1]
  · simp only [h1, if_false]
    by_cases h2 : (resolveSelection (availableColumns df) pick).isEmpty
    · simp [h2]
    · simp only [h2, if_false]
      by_cases h4 : (filterTable df s e).rows.isEmpty
      · simp [h4]
      · simp [h4]

/-- Witness for C5 at concrete inputs (the trailing implication is
discharged at two concrete session states). -/
theorem cycle_deterministic_in_inputs_witness :
    (runCycle ⟨demoTable, none⟩ 0 10 none true).error = none ∧
    (runCycle ⟨demoTable, none⟩ 0 10 none true).state.sess =
      (runCycle ⟨demoTable, some demoSession⟩ 0 10 none true).state.sess :=
  ⟨rfl, (cycle_deterministic_in_inputs demoTable 0 10 none none (some demoSession)).2.2 rfl⟩

/-- C6: a cycle that halts with any error leaves the whole state — the
loaded table and the stored last-displayed result — exactly as it was
before the cycle. -/
theorem halted_cycle_preserves_state (st : AppState) (s e : Int)
    (pick : Option (List String)) (button : Bool) (err : AppError)
    (h : (runCycle st s e pick button).error = some err) :
    (runCycle st s e pick button).state = st := by
  unfold runCycle at h ⊢
  by_cases h1 : s > e
  · simp [h1]
  · simp only [h1, if_false] at h ⊢
    by_cases h2 : (resolveSelection (availableColumns st.df) pick).isEmpty
    · simp [h2]
    · simp only [h2, if_false] at h ⊢
      by_cases h3 : button || st.sess.isNone
      · simp only [h3, if_true] at h ⊢
        by_cases h4 : (filterTable st.df s e).rows.isEmpty
        · simp [h4]
        · simp [h4] at h
      · simp only [h3, if_false] at h ⊢
        cases st.sess with
        | some sd => rfl
        | none => rfl

/-- Witness for C6: the invalid-range halt keeps the demo state. -/
theorem halted_cycle_preserves_state_witness :
    (runCycle ⟨demoTable, some demoSession⟩ 7 2 none true).error =
      some AppError.invalidRange ∧
    (runCycle ⟨demoTable, some demoSession⟩ 7 2 none true).state =
      ⟨demoTable, some demoSession⟩ :=
  ⟨rfl, halted_cycle_preserves_state ⟨demoTable, some demoSession⟩ 7 2 none true
    AppError.invalidRange rfl⟩

/-- The demo window [0, 10] keeps the first two rows. -/
lemma demo_filtered_rows_eq : (filterTable demoTable 0 10).rows = [rowA, rowB] := rfl

/-- The demo filtered subset is non-empty. -/
lemma demo_filtered_rows_ne_nil : (filterTable demoTable 0 10).rows ≠ [] := by
  rw [demo_filtered_rows_eq]
  exact List.cons_ne_nil rowA [rowB]

/-- After any cycle, the stored session is either what it was before,
or the freshly filtered (non-empty) table paired with the resolved
selection. -/
lemma runCycle_sess_cases (df : Table) (sess : Option SessionData) (s e : Int)
    (pick : Option (List String)) (button : Bool) :
    (runCycle ⟨df, sess⟩ s e pick button).state.sess = sess ∨
    ((runCycle ⟨df, sess⟩ s e pick button).state.sess =
        some ⟨filterTable df s e, resolveSelection (availableColumns df) pick⟩ ∧
      (filterTable df s e).rows ≠ []) := by
  unfold runCycle
  by_cases h1 : s > e
  · left; simp [h1]
  · simp only [h1, if_false]
    by_cases h2 : (resolveSelection (availableColumns df) pick).isEmpty
    · left; simp [h2]
    · simp only [h2, if_false]
      by_cases h3 : button || (Option.isNone sess)
      · simp only [h3, if_true]
        by_cases h4 : (filterTable df s e).rows.isEmpty
        · left; simp [h4]
        · right
          refine ⟨by simp [h4], fun hnil => h4 (List.isEmpty_iff.mpr hnil)⟩
      · simp only [h3, if_false]
        cases sess with
        | some sd => left; rfl
        | none => simp at h3

/-- C4: on a non-empty filtered subset and a non-empty selection drawn
from the table's schema, summarize yields one entry per selected field,
keyed by field name in selection order, and each entry's three
aggregates satisfy min ≤ mean ≤ max. -/
theorem summarize_keys_and_min_mean_max (tbl : Table) (s e : Int) (sel : List String)
    (h1 : (filterTable tbl s e).rows ≠ [])
    (h2 : sel ≠ [])
    (h3 : ∀ c ∈ sel, c ∈ tbl.cols) :
    (summarize (filterTable tbl s e).rows sel).map Prod.fst = sel ∧
    ∀ p ∈ summarize (filterTable tbl s e).rows sel,
      p.2.minVal ≤ p.2.avgVal ∧ p.2.avgVal ≤ p.2.maxVal := by
  constructor
  · simp [summarize, Function.comp_def]
  · intro p hp
    simp only [summarize, List.mem_map] at hp
    obtain ⟨c, hc, rfl⟩ := hp
    have hvals : ((filterTable tbl s e).rows.map (fun r => r.values c)) ≠ [] := by
      intro hmap
      exact h1 (List.map_eq_nil_iff.mp hmap)
    exact ⟨listMin_le_listMean _ hvals, listMean_le_listMax _ hvals⟩

/-- Witness for C4: column X over the demo window [0, 10]. -/
theorem summarize_keys_and_min_mean_max_witness :
    ((filterTable demoTable 0 10).rows ≠ [] ∧ ["X"] ≠ ([] : List String) ∧
      (∀ c ∈ ["X"], c ∈ demoTable.cols)) ∧
    (summarize (filterTable demoTable 0 10).rows ["X"]).map Prod.fst = ["X"] :=
  ⟨⟨demo_filtered_rows_ne_nil, by decide, by decide⟩,
   (summarize_keys_and_min_mean_max demoTable 0 10 ["X"]
     demo_filtered_rows_ne_nil (by decide) (by decide)).1⟩

/-- C7: with a valid range, an empty resolved selection halts the cycle
with the empty-selection error before any filtering (state untouched, no
summary); and, provided the widget only offers the available columns,
the resolved selection always consists of names present in the table's
schema. -/
theorem empty_selection_halts_and_schema (df : Table) (sess : Option SessionData)
    (s e : Int) (pick : Option (List String)) (button : Bool)
    (hpick : ∀ l, pick = some l → ∀ c ∈ l, c ∈ availableColumns df) :
    (s ≤ e → resolveSelection (availableColumns df) pick = [] →
      runCycle ⟨df, sess⟩ s e pick button =
        ⟨⟨df, sess⟩, some AppError.emptySelection, none⟩) ∧
    (∀ c ∈ resolveSelection (availableColumns df) pick, c ∈ df.cols) := by
  constructor
  · intro hrange hres
    have h1 : ¬ s > e := not_lt.mpr hrange
    simp [runCycle, h1, hres]
  · intro c hc
    cases pick with
    | some l =>
        exact availableColumns_subset df c (hpick l rfl c hc)
    | none =>
        apply availableColumns_subset df c
        simp only [resolveSelection] at hc
        by_cases hlen : (availableColumns df).length ≥ 2
        · rw [if_pos hlen] at hc
          exact List.take_subset 2 (availableColumns df) hc
        · rw [if_neg hlen] at hc
          exact hc

/-- Witness for C7: the demo table with the widget default (no pick). -/
theorem empty_selection_halts_and_schema_witness :
    (∀ l, (none : Option (List String)) = some l → ∀ c ∈ l, c ∈ availableColumns demoTable) ∧
    "X" ∈ demoTable.cols :=
  ⟨fun _ h => Option.noConfusion h,
   (empty_selection_halts_and_schema demoTable none 0 10 none true
     (fun _ h => Option.noConfusion h)).2 "X" (by decide)⟩

/-- C8: when the user made no pre-selection, the multiselect defaults to
the first two available (non-timestamp) columns, and to all available
columns when fewer than two exist. -/
theorem default_selection_first_two (df : Table) :
    (2 ≤ (availableColumns df).length →
      resolveSelection (availableColumns df) none = (availableColumns df).take 2) ∧
    ((availableColumns df).length < 2 →
      resolveSelection (availableColumns df) none = availableColumns df) := by
  constructor
  · intro h
    simp [resolveSelection, h]
  · intro h
    have hn : ¬ (availableColumns df).length ≥ 2 := not_le.mpr h
    simp [resolveSelection, hn]

/-- Witness for C8: the demo table has exactly two available columns. -/
theorem default_selection_first_two_witness :
    2 ≤ (availableColumns demoTable).length ∧
    resolveSelection (availableColumns demoTable) none = (availableColumns demoTable).take 2 :=
  ⟨by decide, (default_selection_first_two demoTable).1 (by decide)⟩

/-- C9: the summary branch only ever reads a non-empty stored filtered
table — if every stored filtered table was non-empty before the cycle,
then whatever is stored afterwards is non-empty too (the update path
checks emptiness before storing, halted paths store nothing). -/
theorem stored_filtered_nonempty (df : Table) (sess : Option SessionData)
    (s e : Int) (pick : Option (List String)) (button : Bool)
    (hinv : ∀ sd, sess = some sd → sd.filtered.rows ≠ [])
    (sd2 : SessionData)
    (h : (runCycle ⟨df, sess⟩ s e pick button).state.sess = some sd2) :
    sd2.filtered.rows ≠ [] := by
  rcases runCycle_sess_cases df sess s e pick button with hcase | ⟨hcase, hne⟩
  · exact hinv sd2 (by rw [← hcase]; exact h)
  · have : some sd2 = some ⟨filterTable df s e, resolveSelection (availableColumns df) pick⟩ := by
      rw [← h, hcase]
    rw [Option.some_inj.mp this]
    exact hne

/-- Witness for C9: the first load on the demo table stores the
non-empty filtered window [0, 10]. -/
theorem stored_filtered_nonempty_witness :
    (∀ sd, (none : Option SessionData) = some sd → sd.filtered.rows ≠ []) ∧
    demoSession.filtered.rows ≠ [] :=
  ⟨fun _ h => Option.noConfusion h,
   stored_filtered_nonempty demoTable none 0 10 none true
     (fun _ h => Option.noConfusion h) demoSession rfl⟩
